import Mathlib

/-!
# Verification of the RPP consent-gated routing core

Shallow embedding of the core engine of the `rpp` package:

* `src/rpp/ra_constants.py`   — scaled constants and timing constants
* `src/rpp/consent_header.py` — CRC-8, consent-state derivation, 18-byte header codec
* `src/rpp/transitions.py`    — dwell timer and fallback gate
* `src/rpp/sector_router.py`  — consent-gated sector access and routing
* `src/rpp/coherence.py`      — coherence scoring

Modelling conventions:
* Python `int` values that are used as unsigned machine words are modelled as
  `Nat`, with `x & (2^k - 1)` rendered as `x % 2^k`, `x << k` as `x * 2^k` and
  `x >> k` as `x / 2^k` (equal operations on naturals).
* `bytes` values are modelled as `List Nat` with every element `< 256`.
* The embedded `RPPAddress` (`src/rpp/address_canonical.py`) is represented by
  its 32-bit wire value: `ConsentPacketHeader.to_bytes` emits exactly the four
  big-endian bytes of `RPPAddress.to_int()` and `from_bytes` reconstructs the
  address from those bytes, so a header's address content on the wire is the
  32-bit integer (`to_int` is a bijection from decoded addresses to 32-bit
  values: every mask/shift field of `from_int` re-encodes to itself, including
  the radius byte, since `round((k/255)*255) = k` for `0 ≤ k ≤ 255`).
* The private `_crc` dataclass slot of `ConsentPacketHeader` is a cache that
  `to_bytes` recomputes from scratch and `from_bytes` fills with the stored
  checksum; it is not one of the declared header fields and is omitted from
  the record.
* Python floats are modelled as `ℚ`; `int(x)` applied to the nonnegative
  quantities appearing in `compute_coherence_score` is `⌊x⌋`.
-/

set_option maxHeartbeats 2000000
set_option maxRecDepth 100000

namespace RPP

/-! ## Constants (src/rpp/ra_constants.py) -/

def GREEN_PHI_SCALED : Nat := 165

def ANKH_SCALED : Nat := 509

def ALPHA_INV_SCALED : Nat := 137

def MAX_COHERENCE : Nat := 674

def PHI_THRESHOLD_4BIT : Int := 10

def ATTENTIVE_THRESHOLD_4BIT : Int := 7

def DIMINISHED_THRESHOLD_4BIT : Int := 6

def KHAT_DURATION : Nat := 12

def ETF_DURATION : Nat := 9

def DWELL_BASE : Nat := 3

def DWELL_FULL : Nat := 19

def REFLECTION_DELAY : Nat := 4

/-! ## Consent states (src/rpp/consent_header.py, class ConsentState) -/

inductive ConsentState where
  | FULL_CONSENT
  | ATTENTIVE
  | DIMINISHED_CONSENT
  | SUSPENDED_CONSENT
  | EMERGENCY_OVERRIDE
deriving DecidableEq

/-- The `IntEnum` value of each consent state (FULL_CONSENT = 0, ...,
EMERGENCY_OVERRIDE = 4). -/
def ConsentState.value : ConsentState → Nat
  | .FULL_CONSENT => 0
  | .ATTENTIVE => 1
  | .DIMINISHED_CONSENT => 2
  | .SUSPENDED_CONSENT => 3
  | .EMERGENCY_OVERRIDE => 4

/-! ## Consent-state derivation (src/rpp/consent_header.py, derive_consent_state) -/

/-- `derive_consent_state(consent_somatic_4bit, verbal_signal_strength)`.
Python ints are modelled as `Int`; every comparison in the source is `>=`. -/
def derive_consent_state (consent_somatic_4bit : Int)
    (verbal_signal_strength : Int) : ConsentState :=
  if PHI_THRESHOLD_4BIT ≤ consent_somatic_4bit then
    ConsentState.FULL_CONSENT
  else if ATTENTIVE_THRESHOLD_4BIT ≤ consent_somatic_4bit then
    ConsentState.ATTENTIVE
  else if DIMINISHED_THRESHOLD_4BIT ≤ consent_somatic_4bit then
    if 2 ≤ verbal_signal_strength then ConsentState.ATTENTIVE
    else ConsentState.DIMINISHED_CONSENT
  else
    ConsentState.SUSPENDED_CONSENT

/-! ## CRC-8 (src/rpp/consent_header.py, compute_crc8) -/

/-- One iteration of the inner bit loop of `compute_crc8`: shift left, xor in
the polynomial `0x07` when the top bit was set, and mask back to 8 bits
(`crc &= 0xFF` runs on every iteration). -/
def crc8Round (crc : Nat) : Nat :=
  (if crc.testBit 7 then (crc * 2) ^^^ 0x07 else crc * 2) % 256

/-- Processing of one data byte: `crc ^= byte` followed by eight rounds. -/
def crc8Byte (crc byte : Nat) : Nat :=
  crc8Round^[8] (crc ^^^ byte)

/-- `compute_crc8(data)`: CRC-8 with polynomial `0x07`, initial value `0x00`. -/
def compute_crc8 (data : List Nat) : Nat :=
  data.foldl crc8Byte 0

/-! ## Consent packet header (src/rpp/consent_header.py, ConsentPacketHeader) -/

/-- The declared fields of `ConsentPacketHeader`. The embedded address is its
32-bit wire value and the private `_crc` cache is omitted (see module header).
`consent_ancestral` is the `AncestralConsent` tag (0-3) and `payload_type` the
`PayloadType` tag (defined tags are `0x0`-`0xB`). -/
structure ConsentPacketHeader where
  rpp_address : Nat
  packet_id : Nat
  origin_ref : Nat
  verbal_signal_strength : Nat
  consent_somatic_4bit : Nat
  consent_ancestral : Nat
  temporal_lock : Bool
  phase_entropy_index : Nat
  complecount_trace : Nat
  payload_type : Nat
  fallback_vector : Nat
  coherence_window_id : Nat
  target_phase_ref : Nat
deriving DecidableEq

/-- Big-endian bytes of `struct.pack('>I', x & 0xFFFFFFFF)`. -/
def be32 (x : Nat) : List Nat :=
  [x % 2 ^ 32 / 2 ^ 24, x % 2 ^ 32 / 2 ^ 16 % 256, x % 2 ^ 32 / 2 ^ 8 % 256,
   x % 256]

/-- Big-endian bytes of `struct.pack('>H', x & 0xFFFF)`. -/
def be16 (x : Nat) : List Nat :=
  [x % 2 ^ 16 / 2 ^ 8, x % 256]

/-- `_encode_consent_byte`: `[7:6]` verbal (clamped with `min(3, max(0, v))`,
which on naturals is `min 3 v`, then masked), `[5:2]` somatic (clamped with
`min(15, max(0, s))`, then masked), `[1:0]` ancestral (masked). -/
def encode_consent_byte (h : ConsentPacketHeader) : Nat :=
  min 3 h.verbal_signal_strength % 4 * 64 +
    min 15 h.consent_somatic_4bit % 16 * 4 + h.consent_ancestral % 4

/-- `_encode_entropy_byte`: `[7:3]` phase-entropy, `[2:0]` complecount. -/
def encode_entropy_byte (h : ConsentPacketHeader) : Nat :=
  h.phase_entropy_index % 32 * 8 + h.complecount_trace % 8

/-- `_encode_temporal_byte`: `[7]` temporal lock, `[3:0]` payload type. -/
def encode_temporal_byte (h : ConsentPacketHeader) : Nat :=
  (if h.temporal_lock then 128 else 0) + h.payload_type % 16

/-- Bytes 0-16 of `to_bytes` (everything except the trailing CRC). -/
def headerBody (h : ConsentPacketHeader) : List Nat :=
  be32 h.rpp_address ++ be32 h.packet_id ++ be16 h.origin_ref ++
    [encode_consent_byte h, encode_entropy_byte h, encode_temporal_byte h,
     h.fallback_vector % 256] ++
    be16 h.coherence_window_id ++ [h.target_phase_ref % 256]

/-- `ConsentPacketHeader.to_bytes`: the 17 body bytes followed by the CRC over
those bytes. -/
def to_bytes (h : ConsentPacketHeader) : List Nat :=
  headerBody h ++ [compute_crc8 (headerBody h)]

/-- Decoding failures of `ConsentPacketHeader.from_bytes` (all raised as
`ValueError` in the source, distinguished here by their cause): wrong input
length, CRC mismatch, or an undefined `PayloadType` tag (`0xC`-`0xF`). -/
inductive DecodeError where
  | lengthError
  | checksumError
  | payloadTypeError
deriving DecidableEq

/-- `ConsentPacketHeader.from_bytes`: length check, then CRC check over the
first 17 bytes against the stored byte 17, then field extraction (the only
field extraction that can fail is `PayloadType(temporal_byte & 0x0F)`). -/
def from_bytes (data : List Nat) : Except DecodeError ConsentPacketHeader :=
  if data.length ≠ 18 then Except.error DecodeError.lengthError
  else if compute_crc8 (data.take 17) ≠ data.getD 17 0 then
    Except.error DecodeError.checksumError
  else if 12 ≤ data.getD 12 0 % 16 then Except.error DecodeError.payloadTypeError
  else Except.ok
    { rpp_address := data.getD 0 0 * 2 ^ 24 + data.getD 1 0 * 2 ^ 16 +
        data.getD 2 0 * 2 ^ 8 + data.getD 3 0
      packet_id := data.getD 4 0 * 2 ^ 24 + data.getD 5 0 * 2 ^ 16 +
        data.getD 6 0 * 2 ^ 8 + data.getD 7 0
      origin_ref := data.getD 8 0 * 2 ^ 8 + data.getD 9 0
      verbal_signal_strength := data.getD 10 0 / 64 % 4
      consent_somatic_4bit := data.getD 10 0 / 4 % 16
      consent_ancestral := data.getD 10 0 % 4
      temporal_lock := data.getD 12 0 / 128 % 2 == 1
      phase_entropy_index := data.getD 11 0 / 8 % 32
      complecount_trace := data.getD 11 0 % 8
      payload_type := data.getD 12 0 % 16
      fallback_vector := data.getD 13 0
      coherence_window_id := data.getD 14 0 * 2 ^ 8 + data.getD 15 0
      target_phase_ref := data.getD 16 0 }

/-- The header actually recovered by decoding an encoding: every field brought
into its declared bit width exactly the way `to_bytes` brings it onto the wire
(clamping for verbal/somatic, masking for everything else). -/
def clampHeader (h : ConsentPacketHeader) : ConsentPacketHeader where
  rpp_address := h.rpp_address % 2 ^ 32
  packet_id := h.packet_id % 2 ^ 32
  origin_ref := h.origin_ref % 2 ^ 16
  verbal_signal_strength := min 3 h.verbal_signal_strength
  consent_somatic_4bit := min 15 h.consent_somatic_4bit
  consent_ancestral := h.consent_ancestral % 4
  temporal_lock := h.temporal_lock
  phase_entropy_index := h.phase_entropy_index % 32
  complecount_trace := h.complecount_trace % 8
  payload_type := h.payload_type % 16
  fallback_vector := h.fallback_vector % 256
  coherence_window_id := h.coherence_window_id % 2 ^ 16
  target_phase_ref := h.target_phase_ref % 256

/-! ## Transition dynamics (src/rpp/transitions.py) -/

inductive TransitionDirection where
  | NONE
  | UPGRADE
  | DOWNGRADE
deriving DecidableEq

/-- The mutable state of `DwellTimer`. -/
structure DwellTimer where
  current_state : Option ConsentState
  cycles_in_state : Nat
  target_state : Option ConsentState
  cycles_at_target : Nat
deriving DecidableEq

/-- `DwellTimer.__init__`. -/
def DwellTimer.init : DwellTimer :=
  { current_state := none, cycles_in_state := 0, target_state := none,
    cycles_at_target := 0 }

/-- `DwellTimer.set_state`: resets the cycle counter and pending target when
the state actually changes. -/
def DwellTimer.set_state (t : DwellTimer) (state : ConsentState) : DwellTimer :=
  if some state ≠ t.current_state then
    { current_state := some state, cycles_in_state := 0, target_state := none,
      cycles_at_target := 0 }
  else t

/-- `DwellTimer.tick`: advance one cycle. -/
def DwellTimer.tick (t : DwellTimer) : DwellTimer :=
  { t with
    cycles_in_state := t.cycles_in_state + 1
    cycles_at_target :=
      if t.target_state ≠ none then t.cycles_at_target + 1
      else t.cycles_at_target }

/-- `DwellTimer._get_direction`: lower enum value means higher consent. -/
def DwellTimer.get_direction (t : DwellTimer) (target : ConsentState) :
    TransitionDirection :=
  match t.current_state with
  | none => TransitionDirection.NONE
  | some cur =>
    if target.value < cur.value then TransitionDirection.UPGRADE
    else if cur.value < target.value then TransitionDirection.DOWNGRADE
    else TransitionDirection.NONE

/-- `DwellTimer._get_required_dwell`. -/
def get_required_dwell (target : ConsentState) : Nat :=
  if target = ConsentState.FULL_CONSENT then DWELL_FULL
  else if target = ConsentState.ATTENTIVE ∨
      target = ConsentState.DIMINISHED_CONSENT then DWELL_BASE
  else 0

/-- `DwellTimer.request_transition`: returns whether the transition is allowed
together with the updated timer. -/
def DwellTimer.request_transition (t : DwellTimer) (target : ConsentState) :
    Bool × DwellTimer :=
  match t.current_state with
  | none => (true, t.set_state target)
  | some cur =>
    if target = cur then (true, t)
    else if t.get_direction target = TransitionDirection.DOWNGRADE then
      (true, t.set_state target)
    else
      let required_dwell := get_required_dwell target
      if t.target_state ≠ some target then
        (false, { t with target_state := some target, cycles_at_target := 0 })
      else if required_dwell ≤ t.cycles_at_target then (true, t.set_state target)
      else (false, t)

/-- One scheduling tick of the dwell component, in the order used by
`TransitionManager.process_cycle`: `request_transition` for the detected
target, then `tick`. -/
def dwellStep (t : DwellTimer) (target : ConsentState) : Bool × DwellTimer :=
  let r := t.request_transition target
  (r.1, r.2.tick)

/-- The timer after `n` scheduling ticks that continuously request `target`. -/
def dwellRun (t : DwellTimer) (target : ConsentState) : Nat → DwellTimer
  | 0 => t
  | n + 1 => (dwellStep (dwellRun t target n) target).2

/-- Whether the continuous per-tick request is granted on tick `n` (ticks are
numbered from 1). -/
def grantedOnTick (t : DwellTimer) (target : ConsentState) (n : Nat) : Bool :=
  (dwellStep (dwellRun t target (n - 1)) target).1

/-- A dwell timer currently resident in `ATTENTIVE` with no pending target. -/
def attentiveTimer : DwellTimer :=
  { current_state := some ConsentState.ATTENTIVE, cycles_in_state := 0,
    target_state := none, cycles_at_target := 0 }

/-- The mutable state of `FallbackGate`. -/
structure FallbackGate where
  threshold : Nat
  below_threshold_cycles : Nat
  fallback_triggered : Bool
deriving DecidableEq

/-- `FallbackGate.__init__` with the default threshold 137. -/
def FallbackGate.init : FallbackGate :=
  { threshold := 137, below_threshold_cycles := 0, fallback_triggered := false }

/-- `FallbackGate.update`: counts consecutive below-threshold ticks, triggers
strictly beyond `KHAT_DURATION`, and resets counter and flag together on any
tick at or above the threshold. -/
def FallbackGate.update (g : FallbackGate) (coherence : Nat) :
    Bool × FallbackGate :=
  if coherence < g.threshold then
    let cycles := g.below_threshold_cycles + 1
    if KHAT_DURATION < cycles then
      (true, { g with below_threshold_cycles := cycles,
                      fallback_triggered := true })
    else
      (false, { g with below_threshold_cycles := cycles })
  else
    (false, { g with below_threshold_cycles := 0, fallback_triggered := false })

/-- Feed a sequence of per-tick coherence values through the gate. -/
def runGate (g : FallbackGate) (cs : List Nat) : FallbackGate :=
  cs.foldl (fun g c => (g.update c).2) g

/-! ## Sector router (src/rpp/sector_router.py) -/

inductive RoutableSector where
  | VOID
  | CORE
  | GENE
  | MEMORY
  | WITNESS
  | DREAM
  | BRIDGE
  | GUARDIAN
  | SHADOW
deriving DecidableEq

/-- The `SECTOR_ACCESS` matrix: accessible sectors per consent state. -/
def SECTOR_ACCESS (consent_state : ConsentState) : List RoutableSector :=
  match consent_state with
  | .FULL_CONSENT =>
    [.VOID, .CORE, .GENE, .MEMORY, .WITNESS, .DREAM, .BRIDGE, .GUARDIAN,
     .SHADOW]
  | .ATTENTIVE => [.MEMORY, .WITNESS, .BRIDGE, .GUARDIAN]
  | .DIMINISHED_CONSENT => [.BRIDGE, .GUARDIAN, .SHADOW]
  | .SUSPENDED_CONSENT => [.BRIDGE, .GUARDIAN]
  | .EMERGENCY_OVERRIDE => [.GUARDIAN]

/-- `FALLBACK_CHAIN`. -/
def FALLBACK_CHAIN : List RoutableSector :=
  [RoutableSector.GUARDIAN, RoutableSector.BRIDGE]

/-- `can_access_sector`: VOID requires coherence 0, GUARDIAN is always
accessible, everything else consults the access matrix. -/
def can_access_sector (consent_state : ConsentState) (sector : RoutableSector)
    (coherence : Nat) : Bool :=
  if sector = RoutableSector.VOID then coherence == 0
  else if sector = RoutableSector.GUARDIAN then true
  else decide (sector ∈ SECTOR_ACCESS consent_state)

/-- `get_accessible_sectors` (the dictionary lookup never misses: the matrix
is total over the five states). -/
def get_accessible_sectors (consent_state : ConsentState) :
    List RoutableSector :=
  SECTOR_ACCESS consent_state

/-- `get_fallback_sector`: keep an accessible request (checked at the default
coherence 674), otherwise the first chain entry in the accessible set,
otherwise GUARDIAN. -/
def get_fallback_sector (consent_state : ConsentState)
    (requested_sector : RoutableSector) : RoutableSector :=
  if can_access_sector consent_state requested_sector 674 then requested_sector
  else
    let accessible := get_accessible_sectors consent_state
    (FALLBACK_CHAIN.find? (fun fallback => decide (fallback ∈ accessible))).getD
      RoutableSector.GUARDIAN

/-- `RoutingDecision` (the human-readable reason string is carried along). -/
structure RoutingDecision where
  granted : Bool
  sector : RoutableSector
  original_sector : RoutableSector
  reason : String
deriving DecidableEq

/-- `RoutingDecision.was_redirected`. -/
def RoutingDecision.was_redirected (d : RoutingDecision) : Bool :=
  d.sector != d.original_sector

def ConsentState.pyName : ConsentState → String
  | .FULL_CONSENT => "FULL_CONSENT"
  | .ATTENTIVE => "ATTENTIVE"
  | .DIMINISHED_CONSENT => "DIMINISHED_CONSENT"
  | .SUSPENDED_CONSENT => "SUSPENDED_CONSENT"
  | .EMERGENCY_OVERRIDE => "EMERGENCY_OVERRIDE"

def RoutableSector.pyName : RoutableSector → String
  | .VOID => "VOID"
  | .CORE => "CORE"
  | .GENE => "GENE"
  | .MEMORY => "MEMORY"
  | .WITNESS => "WITNESS"
  | .DREAM => "DREAM"
  | .BRIDGE => "BRIDGE"
  | .GUARDIAN => "GUARDIAN"
  | .SHADOW => "SHADOW"

/-- `route_to_sector`. -/
def route_to_sector (consent_state : ConsentState)
    (requested_sector : RoutableSector) (coherence : Nat)
    (allow_fallback : Bool) : RoutingDecision :=
  if requested_sector = RoutableSector.VOID then
    if coherence = 0 then
      { granted := true, sector := RoutableSector.VOID,
        original_sector := RoutableSector.VOID,
        reason := "coherence=0 enables VOID access" }
    else if allow_fallback then
      let fallback := get_fallback_sector consent_state requested_sector
      { granted := true, sector := fallback,
        original_sector := RoutableSector.VOID,
        reason := "VOID requires coherence=0, redirected to " ++
          fallback.pyName }
    else
      { granted := false, sector := requested_sector,
        original_sector := requested_sector,
        reason := "VOID requires coherence=0" }
  else if can_access_sector consent_state requested_sector coherence then
    { granted := true, sector := requested_sector,
      original_sector := requested_sector,
      reason := consent_state.pyName ++ " grants access to " ++
        requested_sector.pyName }
  else if allow_fallback then
    let fallback := get_fallback_sector consent_state requested_sector
    { granted := true, sector := fallback,
      original_sector := requested_sector,
      reason := consent_state.pyName ++ " denies " ++
        requested_sector.pyName ++ ", redirected to " ++ fallback.pyName }
  else
    { granted := false, sector := requested_sector,
      original_sector := requested_sector,
      reason := consent_state.pyName ++ " denies access to " ++
        requested_sector.pyName }

/-! ## Coherence scoring (src/rpp/coherence.py) -/

/-- The inline clamping `max(0.0, min(1.0, x))` applied to both inputs. -/
def clamp01 (x : ℚ) : ℚ := max 0 (min 1 x)

/-- `compute_coherence_score(engagement, completion)`: clamp both inputs into
`[0, 1]`, take the integer parts of the two weighted components (`int` on a
nonnegative float is the floor), add, and clamp the sum into
`[0, MAX_COHERENCE]`. -/
def compute_coherence_score (engagement completion : ℚ) : Int :=
  let e := clamp01 engagement
  let c := clamp01 completion
  let engagement_component := ⌊(GREEN_PHI_SCALED : ℚ) * e⌋
  let completion_component := ⌊(ANKH_SCALED : ℚ) * c⌋
  let score := engagement_component + completion_component
  min (MAX_COHERENCE : Int) (max 0 score)

/-! ## Concrete example headers used by witnesses and counterexamples -/

/-- A concrete header with every field inside its declared range. -/
def testHeader : ConsentPacketHeader where
  rpp_address := 0x1A2B3C4D
  packet_id := 0xDEADBEEF
  origin_ref := 0x0042
  verbal_signal_strength := 3
  consent_somatic_4bit := 13
  consent_ancestral := 1
  temporal_lock := false
  phase_entropy_index := 5
  complecount_trace := 2
  payload_type := 1
  fallback_vector := 0xA5
  coherence_window_id := 0x1A2B
  target_phase_ref := 0x7F

/-- A header whose somatic value (20 > 15) and phase-entropy value (40 > 31)
exceed their declared bit widths. -/
def badHeader : ConsentPacketHeader :=
  { testHeader with consent_somatic_4bit := 20, phase_entropy_index := 40 }

/-! ## Single-bit error patterns

`oneBitList len i p` is the length-`len` byte sequence that is zero everywhere
except for the value `p` at index `i`; xoring a buffer with
`oneBitList len i (2 ^ j)` flips exactly bit `j` of byte `i`. -/

def oneBitList : Nat → Nat → Nat → List Nat
  | 0, _, _ => []
  | len + 1, 0, p => p :: List.replicate len 0
  | len + 1, i + 1, p => 0 :: oneBitList len i p

/-- The buffer with exactly bit `j` of byte `i` flipped. -/
def flipBit (data : List Nat) (i j : Nat) : List Nat :=
  List.zipWith (· ^^^ ·) data (oneBitList data.length i (2 ^ j))

/-! ## CRC-8 is linear over xor -/

theorem xor_mul_two (a b : Nat) : (a ^^^ b) * 2 = a * 2 ^^^ b * 2 := by
  have h : ∀ x : Nat, x * 2 = x <<< 1 := by
    intro x
    rw [Nat.shiftLeft_eq, pow_one]
  rw [h, h, h]
  apply Nat.eq_of_testBit_eq
  intro i
  simp only [Nat.testBit_shiftLeft, Nat.testBit_xor]
  cases hdec : decide (1 ≤ i) <;> simp_all

theorem xor_mod_two_pow (x y k : Nat) :
    (x ^^^ y) % 2 ^ k = x % 2 ^ k ^^^ y % 2 ^ k := by
  have h : ∀ z : Nat, z % 2 ^ k = z &&& (2 ^ k - 1) := fun z =>
    (Nat.and_pow_two_sub_one_eq_mod z k).symm
  rw [h, h, h, Nat.and_xor_distrib_right]

theorem xor_shuffle (a b c d : Nat) :
    (a ^^^ b) ^^^ (c ^^^ d) = (a ^^^ c) ^^^ (b ^^^ d) := by
  rw [Nat.xor_assoc, Nat.xor_assoc]
  congr 1
  rw [← Nat.xor_assoc, ← Nat.xor_assoc, Nat.xor_comm b c]

theorem crc8Round_linear (a b : Nat) :
    crc8Round (a ^^^ b) = crc8Round a ^^^ crc8Round b := by
  have key : ∀ x : Nat,
      (if x.testBit 7 then x * 2 ^^^ 0x07 else x * 2) =
        x * 2 ^^^ (if x.testBit 7 then 0x07 else 0) := by
    intro x
    cases hx : x.testBit 7 <;> simp
  unfold crc8Round
  rw [key, key, key, Nat.testBit_xor, xor_mul_two]
  have h256 : (256 : Nat) = 2 ^ 8 := by norm_num
  rw [h256, ← xor_mod_two_pow]
  congr 1
  rw [xor_shuffle]
  congr 1
  cases ha : a.testBit 7 <;> cases hb : b.testBit 7 <;> simp

theorem crc8Iter_linear (n a b : Nat) :
    crc8Round^[n] (a ^^^ b) = crc8Round^[n] a ^^^ crc8Round^[n] b := by
  induction n generalizing a b with
  | zero => simp
  | succ n ih =>
    rw [Function.iterate_succ_apply, Function.iterate_succ_apply,
      Function.iterate_succ_apply, crc8Round_linear, ih]

theorem crc8Byte_linear (c1 c2 b1 b2 : Nat) :
    crc8Byte (c1 ^^^ c2) (b1 ^^^ b2) = crc8Byte c1 b1 ^^^ crc8Byte c2 b2 := by
  unfold crc8Byte
  rw [xor_shuffle, crc8Iter_linear]

theorem foldl_crc8_linear (l1 : List Nat) :
    ∀ (l2 : List Nat) (c1 c2 : Nat), l1.length = l2.length →
      List.foldl crc8Byte (c1 ^^^ c2) (List.zipWith (· ^^^ ·) l1 l2) =
        List.foldl crc8Byte c1 l1 ^^^ List.foldl crc8Byte c2 l2 := by
  induction l1 with
  | nil =>
    intro l2 c1 c2 hlen
    cases l2 with
    | nil => simp
    | cons y ys => simp at hlen
  | cons x xs ih =>
    intro l2 c1 c2 hlen
    cases l2 with
    | nil => simp at hlen
    | cons y ys =>
      simp only [List.zipWith_cons_cons, List.foldl_cons]
      rw [crc8Byte_linear, ih ys _ _ (by simpa using hlen)]

theorem crc8_zipWith_xor (l1 l2 : List Nat) (hlen : l1.length = l2.length) :
    compute_crc8 (List.zipWith (· ^^^ ·) l1 l2) =
      compute_crc8 l1 ^^^ compute_crc8 l2 := by
  have h0 : (0 : Nat) = 0 ^^^ 0 := by simp
  unfold compute_crc8
  rw [h0]
  exact foldl_crc8_linear l1 l2 0 0 hlen

/-! ## Facts about the error patterns -/

theorem oneBitList_length (len i p : Nat) : (oneBitList len i p).length = len := by
  induction len generalizing i with
  | zero => rfl
  | succ len ih =>
    cases i with
    | zero => simp [oneBitList]
    | succ i => simp [oneBitList, ih]

theorem oneBitList_snoc (len i p : Nat) (hi : i < len) :
    oneBitList (len + 1) i p = oneBitList len i p ++ [0] := by
  induction len generalizing i with
  | zero => omega
  | succ len ih =>
    cases i with
    | zero =>
      simp [oneBitList, List.replicate_succ']
    | succ i =>
      have := ih i (by omega)
      simp [oneBitList, this]

theorem zipWith_xor_replicate_zero (l : List Nat) :
    List.zipWith (· ^^^ ·) l (List.replicate l.length 0) = l := by
  induction l with
  | nil => rfl
  | cons x xs ih => simp [List.replicate_succ, ih]

/-- Justification that `flipBit` really is a pointwise modification: it sets
byte `i` to its xor with `2 ^ j` and leaves every other byte alone. -/
theorem flipBit_eq_set (l : List Nat) (i j : Nat) (hi : i < l.length) :
    flipBit l i j = l.set i (l.getD i 0 ^^^ 2 ^ j) := by
  unfold flipBit
  induction l generalizing i with
  | nil => simp at hi
  | cons x xs ih =>
    cases i with
    | zero =>
      simp [oneBitList, zipWith_xor_replicate_zero, Nat.xor_comm]
    | succ i =>
      have := ih i (by simpa using hi)
      simp only [List.length_cons, oneBitList, List.zipWith_cons_cons,
        List.set_cons_succ, List.getD_cons_succ, Nat.xor_zero]
      exact congrArg _ this

theorem getD_append_length (l : List Nat) (c : Nat) :
    (l ++ [c]).getD l.length 0 = c := by
  induction l with
  | nil => rfl
  | cons x xs ih => simp [ih]

/-- No single-bit error pattern over the 17 CRC-covered bytes has CRC zero
(finite check over all 17 × 8 positions). -/
theorem crcPattern_ne_zero :
    ∀ i < 17, ∀ j < 8, compute_crc8 (oneBitList 17 i (2 ^ j)) ≠ 0 := by
  decide

/-! ## Shared helper lemmas -/

theorem headerBody_length (h : ConsentPacketHeader) :
    (headerBody h).length = 17 := by
  simp [headerBody, be32, be16]

theorem to_bytes_length (h : ConsentPacketHeader) : (to_bytes h).length = 18 := by
  simp [to_bytes, headerBody_length]

/-- Invariant of the fallback gate on a run of below-threshold ticks: the
consecutive counter accumulates and the flag is exactly "it was already set,
or the counter has passed `KHAT_DURATION` at some point of the run". -/
theorem runGate_below (cs : List Nat) :
    ∀ g : FallbackGate, g.threshold = 137 → (∀ c ∈ cs, c < 137) →
      (runGate g cs).threshold = 137 ∧
      (runGate g cs).below_threshold_cycles =
        g.below_threshold_cycles + cs.length ∧
      (runGate g cs).fallback_triggered =
        (g.fallback_triggered ||
          (decide (1 ≤ cs.length) &&
            decide (KHAT_DURATION < g.below_threshold_cycles + cs.length))) := by
  induction cs with
  | nil =>
    intro g hth _
    simp [runGate, hth]
  | cons c cs ih =>
    intro g hth hlt
    have hc : c < g.threshold := by
      rw [hth]
      exact hlt c (by simp)
    have hstep : runGate g (c :: cs) = runGate ((g.update c).2) cs := by
      simp [runGate]
    have hup : ((g.update c).2).threshold = g.threshold ∧
        ((g.update c).2).below_threshold_cycles =
          g.below_threshold_cycles + 1 ∧
        ((g.update c).2).fallback_triggered =
          (g.fallback_triggered ||
            decide (KHAT_DURATION < g.below_threshold_cycles + 1)) := by
      unfold FallbackGate.update
      rw [if_pos hc]
      by_cases h12 : KHAT_DURATION < g.below_threshold_cycles + 1
      · simp [h12]
      · simp [h12]
    obtain ⟨hu1, hu2, hu3⟩ := hup
    have ihg := ih ((g.update c).2) (hu1.trans hth)
      (fun x hx => hlt x (by simp [hx]))
    obtain ⟨i1, i2, i3⟩ := ihg
    rw [hstep]
    refine ⟨i1, ?_, ?_⟩
    · rw [i2, hu2]
      simp
      omega
    · rw [i3, hu3, hu2]
      cases hgt : g.fallback_triggered
      · simp only [Bool.false_or]
        rw [Bool.eq_iff_iff]
        simp only [Bool.or_eq_true, Bool.and_eq_true, decide_eq_true_eq,
          List.length_cons]
        omega
      · simp

theorem clamp01_nonneg (x : ℚ) : 0 ≤ clamp01 x := le_max_left 0 _

theorem clamp01_le_one (x : ℚ) : clamp01 x ≤ 1 :=
  max_le (by norm_num) (min_le_left 1 x)

theorem clamp01_idem (x : ℚ) : clamp01 (clamp01 x) = clamp01 x := by
  unfold clamp01
  rw [min_eq_right (max_le (by norm_num) (min_le_left 1 x)),
    max_eq_right (le_max_left 0 _)]

theorem clamp01_mono {x y : ℚ} (h : x ≤ y) : clamp01 x ≤ clamp01 y :=
  max_le_max le_rfl (min_le_min le_rfl h)

theorem encode_temporal_mod (h : ConsentPacketHeader) :
    encode_temporal_byte h % 16 = h.payload_type % 16 := by
  unfold encode_temporal_byte
  cases h.temporal_lock
  · simp
  · rw [if_pos rfl]
    omega

theorem headerBody_explicit (h : ConsentPacketHeader) :
    headerBody h =
      [h.rpp_address % 2 ^ 32 / 2 ^ 24, h.rpp_address % 2 ^ 32 / 2 ^ 16 % 256,
       h.rpp_address % 2 ^ 32 / 2 ^ 8 % 256, h.rpp_address % 256,
       h.packet_id % 2 ^ 32 / 2 ^ 24, h.packet_id % 2 ^ 32 / 2 ^ 16 % 256,
       h.packet_id % 2 ^ 32 / 2 ^ 8 % 256, h.packet_id % 256,
       h.origin_ref % 2 ^ 16 / 2 ^ 8, h.origin_ref % 256,
       encode_consent_byte h, encode_entropy_byte h, encode_temporal_byte h,
       h.fallback_vector % 256,
       h.coherence_window_id % 2 ^ 16 / 2 ^ 8, h.coherence_window_id % 256,
       h.target_phase_ref % 256] := by
  unfold headerBody be32 be16
  simp only [List.cons_append, List.nil_append]

theorem to_bytes_take (h : ConsentPacketHeader) :
    (to_bytes h).take 17 = headerBody h := by
  unfold to_bytes
  rw [← headerBody_length h]
  exact List.take_left _ _

theorem to_bytes_stored (h : ConsentPacketHeader) :
    (to_bytes h).getD 17 0 = compute_crc8 (headerBody h) := by
  unfold to_bytes
  have := getD_append_length (headerBody h) (compute_crc8 (headerBody h))
  rwa [headerBody_length] at this

theorem to_bytes_getD (h : ConsentPacketHeader) (k : Nat) (hk : k < 17) :
    (to_bytes h).getD k 0 = (headerBody h).getD k 0 := by
  unfold to_bytes
  exact List.getD_append _ _ 0 k (by rw [headerBody_length]; exact hk)

/-- Decoding an encoding always succeeds (whenever the payload tag is a
defined one) and recovers exactly the width-truncated fields: this is the
general round-trip fact, of which the in-range round trip is the special
case. -/
theorem from_bytes_to_bytes (h : ConsentPacketHeader)
    (hpt : h.payload_type % 16 ≤ 11) :
    from_bytes (to_bytes h) = Except.ok (clampHeader h) := by
  have hg : ∀ k, k < 17 → (to_bytes h).getD k 0 = (headerBody h).getD k 0 :=
    to_bytes_getD h
  have hb := headerBody_explicit h
  have hg0 : (to_bytes h).getD 0 0 = h.rpp_address % 2 ^ 32 / 2 ^ 24 := by
    rw [hg 0 (by norm_num), hb]
    rfl
  have hg1 : (to_bytes h).getD 1 0 = h.rpp_address % 2 ^ 32 / 2 ^ 16 % 256 := by
    rw [hg 1 (by norm_num), hb]
    rfl
  have hg2 : (to_bytes h).getD 2 0 = h.rpp_address % 2 ^ 32 / 2 ^ 8 % 256 := by
    rw [hg 2 (by norm_num), hb]
    rfl
  have hg3 : (to_bytes h).getD 3 0 = h.rpp_address % 256 := by
    rw [hg 3 (by norm_num), hb]
    rfl
  have hg4 : (to_bytes h).getD 4 0 = h.packet_id % 2 ^ 32 / 2 ^ 24 := by
    rw [hg 4 (by norm_num), hb]
    rfl
  have hg5 : (to_bytes h).getD 5 0 = h.packet_id % 2 ^ 32 / 2 ^ 16 % 256 := by
    rw [hg 5 (by norm_num), hb]
    rfl
  have hg6 : (to_bytes h).getD 6 0 = h.packet_id % 2 ^ 32 / 2 ^ 8 % 256 := by
    rw [hg 6 (by norm_num), hb]
    rfl
  have hg7 : (to_bytes h).getD 7 0 = h.packet_id % 256 := by
    rw [hg 7 (by norm_num), hb]
    rfl
  have hg8 : (to_bytes h).getD 8 0 = h.origin_ref % 2 ^ 16 / 2 ^ 8 := by
    rw [hg 8 (by norm_num), hb]
    rfl
  have hg9 : (to_bytes h).getD 9 0 = h.origin_ref % 256 := by
    rw [hg 9 (by norm_num), hb]
    rfl
  have hg10 : (to_bytes h).getD 10 0 = encode_consent_byte h := by
    rw [hg 10 (by norm_num), hb]
    rfl
  have hg11 : (to_bytes h).getD 11 0 = encode_entropy_byte h := by
    rw [hg 11 (by norm_num), hb]
    rfl
  have hg12 : (to_bytes h).getD 12 0 = encode_temporal_byte h := by
    rw [hg 12 (by norm_num), hb]
    rfl
  have hg13 : (to_bytes h).getD 13 0 = h.fallback_vector % 256 := by
    rw [hg 13 (by norm_num), hb]
    rfl
  have hg14 : (to_bytes h).getD 14 0 = h.coherence_window_id % 2 ^ 16 / 2 ^ 8 := by
    rw [hg 14 (by norm_num), hb]
    rfl
  have hg15 : (to_bytes h).getD 15 0 = h.coherence_window_id % 256 := by
    rw [hg 15 (by norm_num), hb]
    rfl
  have hg16 : (to_bytes h).getD 16 0 = h.target_phase_ref % 256 := by
    rw [hg 16 (by norm_num), hb]
    rfl
  have hv3 : min 3 h.verbal_signal_strength ≤ 3 := min_le_left _ _
  have hs15 : min 15 h.consent_somatic_4bit ≤ 15 := min_le_left _ _
  unfold from_bytes
  rw [if_neg (by simp [to_bytes_length])]
  rw [to_bytes_take, to_bytes_stored, if_neg (by simp)]
  rw [hg12, if_neg (by rw [encode_temporal_mod]; omega)]
  rw [hg0, hg1, hg2, hg3, hg4, hg5, hg6, hg7, hg8, hg9, hg10, hg11, hg13,
    hg14, hg15, hg16]
  unfold clampHeader
  congr 1
  rw [ConsentPacketHeader.mk.injEq]
  refine ⟨?_, ?_, ?_, ?_, ?_, ?_, ?_, ?_, ?_, ?_, ?_, ?_, ?_⟩
  · omega
  · omega
  · omega
  · unfold encode_consent_byte
    omega
  · unfold encode_consent_byte
    omega
  · unfold encode_consent_byte
    omega
  · unfold encode_temporal_byte
    cases h.temporal_lock
    · rw [beq_eq_false_iff_ne]
      simp only [Bool.false_eq_true, if_false]
      omega
    · rw [show ∀ x : Nat, ((x == 1) = true) = (x = 1) from fun x => by
        simp]
      simp only [if_true]
      omega
  · unfold encode_entropy_byte
    omega
  · unfold encode_entropy_byte
    omega
  · exact encode_temporal_mod h
  · rfl
  · omega
  · rfl

/-! ## Claim theorems -/

/-- C5: the consent-state derivation is a pure function of the somatic and
verbal integers: somatic ≥ 10 gives FULL_CONSENT for every verbal value,
somatic in [7,9] gives ATTENTIVE, somatic = 6 gives ATTENTIVE exactly when
verbal ≥ 2 and DIMINISHED_CONSENT otherwise, and somatic < 6 gives
SUSPENDED_CONSENT for every verbal value. -/
theorem C5_derive_consent_state (somatic verbal : Int) :
    (10 ≤ somatic →
      derive_consent_state somatic verbal = ConsentState.FULL_CONSENT) ∧
    (7 ≤ somatic → somatic ≤ 9 →
      derive_consent_state somatic verbal = ConsentState.ATTENTIVE) ∧
    (somatic = 6 → 2 ≤ verbal →
      derive_consent_state somatic verbal = ConsentState.ATTENTIVE) ∧
    (somatic = 6 → verbal < 2 →
      derive_consent_state somatic verbal = ConsentState.DIMINISHED_CONSENT) ∧
    (somatic < 6 →
      derive_consent_state somatic verbal = ConsentState.SUSPENDED_CONSENT) := by
  unfold derive_consent_state PHI_THRESHOLD_4BIT ATTENTIVE_THRESHOLD_4BIT
    DIMINISHED_THRESHOLD_4BIT
  refine ⟨?_, ?_, ?_, ?_, ?_⟩ <;> intros <;> split_ifs <;> first | rfl | omega

/-- C5 witness: concrete evaluations at the boundary inputs named by the
claim. -/
theorem C5_witness :
    derive_consent_state 10 0 = ConsentState.FULL_CONSENT ∧
    derive_consent_state 6 2 = ConsentState.ATTENTIVE ∧
    derive_consent_state 6 1 = ConsentState.DIMINISHED_CONSENT ∧
    derive_consent_state 5 3 = ConsentState.SUSPENDED_CONSENT :=
  ⟨(C5_derive_consent_state 10 0).1 (by norm_num),
   (C5_derive_consent_state 6 2).2.2.1 rfl (by norm_num),
   (C5_derive_consent_state 6 1).2.2.2.1 rfl (by norm_num),
   (C5_derive_consent_state 5 3).2.2.2.2 (by norm_num)⟩

/-- C10: decoding a buffer whose length is not 18 fails with the length
error (not a checksum error — the CRC is never compared), and a header is
only ever returned for inputs of exactly 18 bytes. -/
theorem C10_length_check :
    (∀ data : List Nat, data.length ≠ 18 →
      from_bytes data = Except.error DecodeError.lengthError) ∧
    (∀ (data : List Nat) (h : ConsentPacketHeader),
      from_bytes data = Except.ok h → data.length = 18) := by
  constructor
  · intro data hlen
    unfold from_bytes
    rw [if_pos hlen]
  · intro data h hok
    by_cases hlen : data.length = 18
    · exact hlen
    · unfold from_bytes at hok
      rw [if_pos hlen] at hok
      exact absurd hok (by simp)

/-- C10 witness: the empty buffer and a 17-byte buffer are rejected with the
length error. -/
theorem C10_witness :
    from_bytes [] = Except.error DecodeError.lengthError ∧
    from_bytes (List.replicate 17 0) = Except.error DecodeError.lengthError :=
  ⟨C10_length_check.1 [] (by decide),
   C10_length_check.1 (List.replicate 17 0) (by decide)⟩

/-- C7 counterexample: `route_to_sector(FULL_CONSENT, VOID, coherence=1,
allow_fallback=False)` is denied without a redirect, contradicting the claim
that the call redirects for both values of `allow_fallback`. -/
theorem C7_counterexample :
    (route_to_sector ConsentState.FULL_CONSENT RoutableSector.VOID 1
      false).was_redirected = false ∧
    (route_to_sector ConsentState.FULL_CONSENT RoutableSector.VOID 1
      false).granted = false := by
  constructor <;> rfl

/-- C7 (amended): VOID is accessible exactly when coherence is 0 for every
consent state; `route_to_sector(FULL_CONSENT, VOID, 0, *)` grants VOID without
redirect for both fallback flags; with coherence 1 and `allow_fallback=True`
the call is granted redirected to GUARDIAN or BRIDGE, while with
`allow_fallback=False` it is denied without redirect. -/
theorem C7_void_access :
    (∀ (cs : ConsentState) (coherence : Nat),
      can_access_sector cs RoutableSector.VOID coherence = (coherence == 0)) ∧
    (∀ fb : Bool,
      (route_to_sector ConsentState.FULL_CONSENT RoutableSector.VOID 0
        fb).granted = true ∧
      (route_to_sector ConsentState.FULL_CONSENT RoutableSector.VOID 0
        fb).sector = RoutableSector.VOID ∧
      (route_to_sector ConsentState.FULL_CONSENT RoutableSector.VOID 0
        fb).was_redirected = false) ∧
    ((route_to_sector ConsentState.FULL_CONSENT RoutableSector.VOID 1
        true).granted = true ∧
      (route_to_sector ConsentState.FULL_CONSENT RoutableSector.VOID 1
        true).was_redirected = true ∧
      ((route_to_sector ConsentState.FULL_CONSENT RoutableSector.VOID 1
          true).sector = RoutableSector.GUARDIAN ∨
        (route_to_sector ConsentState.FULL_CONSENT RoutableSector.VOID 1
          true).sector = RoutableSector.BRIDGE)) ∧
    ((route_to_sector ConsentState.FULL_CONSENT RoutableSector.VOID 1
        false).granted = false ∧
      (route_to_sector ConsentState.FULL_CONSENT RoutableSector.VOID 1
        false).was_redirected = false) := by
  refine ⟨?_, ?_, ?_, ?_⟩
  · intro cs coherence
    unfold can_access_sector
    rw [if_pos rfl]
  · intro fb
    cases fb <;> exact ⟨rfl, rfl, rfl⟩
  · exact ⟨rfl, rfl, Or.inl rfl⟩
  · exact ⟨rfl, rfl⟩

/-- C8: GUARDIAN is accessible from every consent state at every coherence;
consequently every non-VOID request with fallback allowed is granted, and in
particular `route_to_sector(EMERGENCY_OVERRIDE, CORE, 500, True)` grants
GUARDIAN with a redirect. -/
theorem C8_guardian_universal :
    (∀ (cs : ConsentState) (coherence : Nat),
      can_access_sector cs RoutableSector.GUARDIAN coherence = true) ∧
    (∀ (cs : ConsentState) (sector : RoutableSector) (coherence : Nat),
      sector ≠ RoutableSector.VOID →
      (route_to_sector cs sector coherence true).granted = true) ∧
    ((route_to_sector ConsentState.EMERGENCY_OVERRIDE RoutableSector.CORE 500
        true).granted = true ∧
      (route_to_sector ConsentState.EMERGENCY_OVERRIDE RoutableSector.CORE 500
        true).sector = RoutableSector.GUARDIAN ∧
      (route_to_sector ConsentState.EMERGENCY_OVERRIDE RoutableSector.CORE 500
        true).was_redirected = true) := by
  refine ⟨?_, ?_, ?_⟩
  · intro cs coherence
    unfold can_access_sector
    rw [if_neg (by decide), if_pos rfl]
  · intro cs sector coherence hsec
    unfold route_to_sector
    rw [if_neg hsec]
    split
    · rfl
    · rfl
  · exact ⟨rfl, rfl, rfl⟩

/-- C8 witness: the universal part applied at `ATTENTIVE`, `CORE`,
coherence 42. -/
theorem C8_witness :
    (route_to_sector ConsentState.ATTENTIVE RoutableSector.CORE 42
      true).granted = true :=
  C8_guardian_universal.2.1 ConsentState.ATTENTIVE RoutableSector.CORE 42
    (by decide)

/-- C3 counterexample: under continuous per-tick requests for FULL_CONSENT
from ATTENTIVE (each tick performing `request_transition` and then `tick`,
the order used by `TransitionManager.process_cycle`), the request on tick 19
is still denied, contradicting the claimed grant on tick 19. -/
theorem C3_counterexample :
    grantedOnTick attentiveTimer ConsentState.FULL_CONSENT 19 = false := by
  decide

/-- C3 (amended): with DWELL_FULL = 19, continuous per-tick requests for
FULL_CONSENT from ATTENTIVE are denied on ticks 1-19 (the first request only
registers the target and resets its counter) and granted exactly on tick 20;
a request for SUSPENDED_CONSENT is granted on the tick it is first requested
from every current state except EMERGENCY_OVERRIDE (the only state from which
SUSPENDED_CONSENT is an upgrade), from which the first request merely
registers the target and the immediately following request is granted. -/
theorem C3_dwell_timing :
    (∀ n : Nat, 1 ≤ n → n ≤ 19 →
      grantedOnTick attentiveTimer ConsentState.FULL_CONSENT n = false) ∧
    grantedOnTick attentiveTimer ConsentState.FULL_CONSENT 20 = true ∧
    (∀ (t : DwellTimer) (cur : ConsentState), t.current_state = some cur →
      cur ≠ ConsentState.EMERGENCY_OVERRIDE →
      (t.request_transition ConsentState.SUSPENDED_CONSENT).1 = true) ∧
    ((DwellTimer.mk (some ConsentState.EMERGENCY_OVERRIDE) 0 none
        0).request_transition ConsentState.SUSPENDED_CONSENT).1 = false ∧
    ((dwellStep (DwellTimer.mk (some ConsentState.EMERGENCY_OVERRIDE) 0 none 0)
        ConsentState.SUSPENDED_CONSENT).2.request_transition
        ConsentState.SUSPENDED_CONSENT).1 = true := by
  refine ⟨?_, by decide, ?_, by decide, by decide⟩
  · intro n h1 h19
    interval_cases n <;> decide
  · intro t cur hc hne
    obtain ⟨cs, a, b, d⟩ := t
    simp only at hc
    subst hc
    cases cur <;>
      first
      | exact absurd rfl hne
      | simp [DwellTimer.request_transition, DwellTimer.get_direction,
          ConsentState.value, DwellTimer.set_state]

/-- C3 witness: the amended theorem applied at tick 7 and at a concrete timer
residing in FULL_CONSENT. -/
theorem C3_witness :
    grantedOnTick attentiveTimer ConsentState.FULL_CONSENT 7 = false ∧
    ((DwellTimer.mk (some ConsentState.FULL_CONSENT) 5 none
        0).request_transition ConsentState.SUSPENDED_CONSENT).1 = true :=
  ⟨C3_dwell_timing.1 7 (by norm_num) (by norm_num),
   C3_dwell_timing.2.2.1 (DwellTimer.mk (some ConsentState.FULL_CONSENT) 5
      none 0) ConsentState.FULL_CONSENT rfl (by decide)⟩

/-- C6: starting from a fresh fallback gate, any run of at most 12
below-threshold ticks leaves the triggered flag clear, any run of at least 13
consecutive below-threshold ticks sets it (and it stays set while the run
continues), and a single tick at or above the threshold resets the counter to
0 and clears the flag in the same update. -/
theorem C6_fallback_gate :
    (∀ cs : List Nat, (∀ c ∈ cs, c < 137) → cs.length ≤ 12 →
      (runGate FallbackGate.init cs).fallback_triggered = false) ∧
    (∀ cs : List Nat, (∀ c ∈ cs, c < 137) → 13 ≤ cs.length →
      (runGate FallbackGate.init cs).fallback_triggered = true) ∧
    (∀ (g : FallbackGate) (c : Nat), g.threshold = 137 → 137 ≤ c →
      g.update c = (false, FallbackGate.mk 137 0 false)) := by
  refine ⟨?_, ?_, ?_⟩
  · intro cs hlt hlen
    have h := (runGate_below cs FallbackGate.init rfl hlt).2.2
    rw [h]
    simp only [FallbackGate.init]
    rw [Bool.false_or, Bool.and_eq_false_iff]
    right
    simp only [decide_eq_false_iff_not]
    unfold KHAT_DURATION
    omega
  · intro cs hlt hlen
    have h := (runGate_below cs FallbackGate.init rfl hlt).2.2
    rw [h]
    simp only [FallbackGate.init, Bool.false_or, Bool.and_eq_true,
      decide_eq_true_eq]
    unfold KHAT_DURATION
    omega
  · intro g c hth hc
    obtain ⟨th, b, f⟩ := g
    simp only at hth
    subst hth
    unfold FallbackGate.update
    rw [if_neg (Nat.not_lt.mpr hc)]

/-- C6 witness: 12 below-threshold ticks leave the gate untriggered, a 13th
triggers it, and a single tick at the threshold resets a deep-in-failure
gate. -/
theorem C6_witness :
    (runGate FallbackGate.init (List.replicate 12 0)).fallback_triggered =
      false ∧
    (runGate FallbackGate.init (List.replicate 13 0)).fallback_triggered =
      true ∧
    (FallbackGate.mk 137 20 true).update 200 =
      (false, FallbackGate.mk 137 0 false) :=
  ⟨C6_fallback_gate.1 (List.replicate 12 0)
      (fun c hc => by rw [List.eq_of_mem_replicate hc]; norm_num) (by simp),
   C6_fallback_gate.2.1 (List.replicate 13 0)
      (fun c hc => by rw [List.eq_of_mem_replicate hc]; norm_num) (by simp),
   C6_fallback_gate.2.2 (FallbackGate.mk 137 20 true) 200 rfl (by norm_num)⟩

/-- C9: the coherence score is monotonically non-decreasing in each argument,
reaches 674 at (1,1) and 0 at (0,0), agrees with the score of the clamped
input pair for every rational input, and always lies in [0, 674]. -/
theorem C9_coherence_score :
    (∀ e1 e2 c : ℚ, e1 ≤ e2 →
      compute_coherence_score e1 c ≤ compute_coherence_score e2 c) ∧
    (∀ e c1 c2 : ℚ, c1 ≤ c2 →
      compute_coherence_score e c1 ≤ compute_coherence_score e c2) ∧
    compute_coherence_score 1 1 = 674 ∧
    compute_coherence_score 0 0 = 0 ∧
    (∀ e c : ℚ, compute_coherence_score e c =
      compute_coherence_score (clamp01 e) (clamp01 c)) ∧
    (∀ e c : ℚ, 0 ≤ compute_coherence_score e c ∧
      compute_coherence_score e c ≤ 674) := by
  have hmono : ∀ {x y : ℚ} (w : ℚ), 0 ≤ w → x ≤ y →
      ⌊w * clamp01 x⌋ ≤ ⌊w * clamp01 y⌋ := by
    intro x y w hw hxy
    exact Int.floor_le_floor (mul_le_mul_of_nonneg_left (clamp01_mono hxy) hw)
  refine ⟨?_, ?_, ?_, ?_, ?_, ?_⟩
  · intro e1 e2 c h
    unfold compute_coherence_score
    exact min_le_min le_rfl (max_le_max le_rfl
      (add_le_add_right (hmono _ (by norm_num) h) _))
  · intro e c1 c2 h
    unfold compute_coherence_score
    exact min_le_min le_rfl (max_le_max le_rfl
      (add_le_add_left (hmono _ (by norm_num) h) _))
  · unfold compute_coherence_score clamp01
    norm_num [GREEN_PHI_SCALED, ANKH_SCALED, MAX_COHERENCE]
  · unfold compute_coherence_score clamp01
    norm_num
  · intro e c
    unfold compute_coherence_score
    rw [clamp01_idem, clamp01_idem]
  · intro e c
    unfold compute_coherence_score
    constructor
    · exact le_min (by norm_num [MAX_COHERENCE]) (le_max_left 0 _)
    · exact (min_le_left _ _).trans (by norm_num [MAX_COHERENCE])

/-- C1: for every header whose fields lie within their declared ranges
(somatic 0-15, verbal 0-3, ancestral 0-3, phase-entropy 0-31,
completion-trace 0-7, payload-type a defined 4-bit tag, packet id and address
32-bit, origin and window references 16-bit, fallback vector and target-phase
reference 8-bit), decoding the encoding returns the header itself, and the
encoding is always exactly 18 bytes. -/
theorem C1_round_trip (h : ConsentPacketHeader)
    (haddr : h.rpp_address < 2 ^ 32) (hpid : h.packet_id < 2 ^ 32)
    (horig : h.origin_ref < 2 ^ 16) (hverb : h.verbal_signal_strength ≤ 3)
    (hsom : h.consent_somatic_4bit ≤ 15) (hanc : h.consent_ancestral ≤ 3)
    (hpe : h.phase_entropy_index ≤ 31) (hcc : h.complecount_trace ≤ 7)
    (hpt : h.payload_type ≤ 11) (hfb : h.fallback_vector < 2 ^ 8)
    (hwin : h.coherence_window_id < 2 ^ 16) (htp : h.target_phase_ref < 2 ^ 8) :
    from_bytes (to_bytes h) = Except.ok h ∧ (to_bytes h).length = 18 := by
  have hclamp : clampHeader h = h := by
    obtain ⟨a, p, o, v, s, anc, tl, pe, cc, pt, fv, w, tp⟩ := h
    dsimp only at haddr hpid horig hverb hsom hanc hpe hcc hpt hfb hwin htp
    unfold clampHeader
    dsimp only
    rw [ConsentPacketHeader.mk.injEq]
    refine ⟨?_, ?_, ?_, ?_, ?_, ?_, rfl, ?_, ?_, ?_, ?_, ?_, ?_⟩ <;> omega
  refine ⟨?_, to_bytes_length h⟩
  rw [from_bytes_to_bytes h (by omega), hclamp]

/-- C1 witness: the round trip evaluated at a concrete in-range header. -/
theorem C1_witness :
    from_bytes (to_bytes testHeader) = Except.ok testHeader ∧
    (to_bytes testHeader).length = 18 :=
  C1_round_trip testHeader (by decide) (by decide) (by decide) (by decide)
    (by decide) (by decide) (by decide) (by decide) (by decide) (by decide)
    (by decide) (by decide)

/-- C4 counterexample: encoding a header whose somatic value (20) and
phase-entropy value (40) exceed their bit widths does NOT fail — it produces
18 bytes that decode with somatic clamped to 15 and phase-entropy masked to
8, i.e. the encoder silently truncates instead of raising a RangeError. -/
theorem C4_counterexample :
    (to_bytes badHeader).length = 18 ∧
    from_bytes (to_bytes badHeader) =
      Except.ok
        { badHeader with
          consent_somatic_4bit := 15
          phase_entropy_index := 8 } := by
  refine ⟨to_bytes_length badHeader, ?_⟩
  rfl

/-- C4 (amended): encoding never fails and never rejects a header: `to_bytes`
always produces exactly 18 bytes, and (whenever the payload tag is defined)
decoding the encoding returns the header with every field silently brought
into its declared bit width — verbal and somatic clamped, the remaining
fields masked — there is no RangeError at encode time. -/
theorem C4_encode_total (h : ConsentPacketHeader) :
    (to_bytes h).length = 18 ∧
    (h.payload_type % 16 ≤ 11 →
      from_bytes (to_bytes h) = Except.ok (clampHeader h)) :=
  ⟨to_bytes_length h, fun hpt => from_bytes_to_bytes h hpt⟩

/-- C4 witness: the amended claim evaluated at the out-of-range header. -/
theorem C4_witness :
    (to_bytes badHeader).length = 18 ∧
    from_bytes (to_bytes badHeader) = Except.ok (clampHeader badHeader) :=
  ⟨(C4_encode_total badHeader).1, (C4_encode_total badHeader).2 (by decide)⟩

/-- C2: flipping any single bit of any of bytes 0-16 of an encoded header
yields a buffer whose recomputed CRC-8 (polynomial 0x07) no longer matches
the stored byte 17, so decoding fails with the checksum error instead of
returning fields. -/
theorem C2_crc_detects_single_bit_flips (h : ConsentPacketHeader) (i j : Nat)
    (hi : i < 17) (hj : j < 8) :
    from_bytes (flipBit (to_bytes h) i j) =
      Except.error DecodeError.checksumError := by
  have hlen_body : (headerBody h).length = 17 := headerBody_length h
  have hpat17 : (oneBitList 17 i (2 ^ j)).length = 17 :=
    oneBitList_length 17 i (2 ^ j)
  have hflip : flipBit (to_bytes h) i j =
      List.zipWith (· ^^^ ·) (headerBody h) (oneBitList 17 i (2 ^ j)) ++
        [compute_crc8 (headerBody h)] := by
    unfold flipBit
    rw [to_bytes_length, show (18 : Nat) = 17 + 1 from rfl,
      oneBitList_snoc 17 i _ hi]
    unfold to_bytes
    rw [List.zipWith_append _ _ _ _ _ (by rw [hlen_body, hpat17])]
    simp
  have hlen_zw :
      (List.zipWith (· ^^^ ·) (headerBody h)
        (oneBitList 17 i (2 ^ j))).length = 17 := by
    rw [List.length_zipWith, hlen_body, hpat17, Nat.min_self]
  have hflen : (flipBit (to_bytes h) i j).length = 18 := by
    rw [hflip, List.length_append, hlen_zw]
    rfl
  have htake : (flipBit (to_bytes h) i j).take 17 =
      List.zipWith (· ^^^ ·) (headerBody h) (oneBitList 17 i (2 ^ j)) := by
    have hleft := List.take_left
      (List.zipWith (· ^^^ ·) (headerBody h) (oneBitList 17 i (2 ^ j)))
      [compute_crc8 (headerBody h)]
    rw [hlen_zw] at hleft
    rw [hflip]
    exact hleft
  have hstored : (flipBit (to_bytes h) i j).getD 17 0 =
      compute_crc8 (headerBody h) := by
    have hlast := getD_append_length
      (List.zipWith (· ^^^ ·) (headerBody h) (oneBitList 17 i (2 ^ j)))
      (compute_crc8 (headerBody h))
    rw [hlen_zw] at hlast
    rw [hflip]
    exact hlast
  have hne : compute_crc8
      (List.zipWith (· ^^^ ·) (headerBody h) (oneBitList 17 i (2 ^ j))) ≠
      compute_crc8 (headerBody h) := by
    rw [crc8_zipWith_xor _ _ (by rw [hlen_body, hpat17])]
    intro heq
    apply crcPattern_ne_zero i hi j hj
    have heq2 : compute_crc8 (headerBody h) ^^^
        compute_crc8 (oneBitList 17 i (2 ^ j)) =
        compute_crc8 (headerBody h) ^^^ 0 := by
      rw [Nat.xor_zero]
      exact heq
    exact Nat.xor_right_inj.mp heq2
  unfold from_bytes
  rw [if_neg (by simp [hflen])]
  rw [htake, hstored, if_pos hne]

/-- C2 witness: a concrete single-bit flip (bit 0 of byte 0) of a concrete
encoded header is rejected with the checksum error. -/
theorem C2_witness :
    from_bytes (flipBit (to_bytes testHeader) 0 0) =
      Except.error DecodeError.checksumError :=
  C2_crc_detects_single_bit_flips testHeader 0 0 (by norm_num) (by norm_num)

/-- C9 witness: the monotonicity part applied at concrete rationals and the
closed evaluations restated. -/
theorem C9_witness :
    compute_coherence_score (1 / 2) (1 / 3) ≤
      compute_coherence_score (3 / 4) (1 / 3) ∧
    compute_coherence_score 2 5 = 674 :=
  ⟨C9_coherence_score.1 (1 / 2) (3 / 4) (1 / 3) (by norm_num),
   by
    have h := C9_coherence_score.2.2.2.2.1 2 5
    have h1 : clamp01 2 = 1 := by norm_num [clamp01]
    have h2 : clamp01 5 = 1 := by norm_num [clamp01]
    rw [h, h1, h2]
    exact C9_coherence_score.2.2.1⟩

end RPP
